import Mathlib

/-!
Verification of the defiflow-agent rebalancing engine.

Shallow embedding of:
- `CacheManager` (TTL cache, `src/unnamed/part_013`)
- `RebalancingService.executeRebalance`, `getRebalanceHistory`,
  `evaluateTriggers`, `checkAutoRebalanceTriggers`
  (`src/src/services/RebalancingService.ts`)
- `ChainSignatureService.executeCrossChainTx` (`src/init.sql`)

JS numbers are modelled by `ℚ` (`Rat`), timestamps in milliseconds by `ℚ`
(cache timestamps by `Int`), JS `Map` by association lists or total
functions, optional fields by `Option`, and thrown exceptions by explicit
`Option String` / `Except String` results.  External calls (protocol
adapters, portfolio fetches, signature polling) are modelled by oracle
functions supplied as arguments, together with instrumentation counters
that record how often they were consulted.
-/

/-! ### TTL cache (`CacheManager`) -/

/-- One cache entry: `{data, timestamp, ttl}`; `timestamp` is the store time
in ms (`Date.now()`), `ttl` is in seconds. -/
structure CacheEntry (α : Type) where
  data : α
  timestamp : Int
  ttl : Int
deriving Repr, DecidableEq

/-- The cache manager: a namespace string and the backing map, modelled as a
total function from full keys to optional entries. -/
structure CacheManager (α : Type) where
  nspace : String
  cache : String → Option (CacheEntry α)

/-- `getKey`: prefix the key with the namespace. -/
def CacheManager.getKey (m : CacheManager α) (key : String) : String :=
  m.nspace ++ ":" ++ key

/-- `isExpired`: `(now - entry.timestamp) > entry.ttl * 1000`. -/
def isExpired (now : Int) (e : CacheEntry α) : Bool :=
  now - e.timestamp > e.ttl * 1000

/-- `get`: returns the stored value when present and fresh; on an expired
entry it deletes the entry and returns `none`; `none` on a miss.
Returns the value read together with the updated cache state. -/
def CacheManager.get (m : CacheManager α) (now : Int) (key : String) :
    Option α × CacheManager α :=
  let fullKey := m.getKey key
  match m.cache fullKey with
  | none => (none, m)
  | some e =>
    if isExpired now e then
      (none, { m with cache := fun k => if k = fullKey then none else m.cache k })
    else
      (some e.data, m)

/-- `set`: stores `{data, timestamp := now, ttl := ttlSeconds}` under the
namespaced key. -/
def CacheManager.set (m : CacheManager α) (now : Int) (key : String) (v : α)
    (ttlSeconds : Int) : CacheManager α :=
  let fullKey := m.getKey key
  { m with cache := fun k =>
      if k = fullKey then some { data := v, timestamp := now, ttl := ttlSeconds }
      else m.cache k }

/-! ### Trigger evaluation (`RebalancingService.evaluateTriggers`) -/

/-- The `triggers` object of `AutoRebalanceSettings`; all fields optional
JS numbers. -/
structure Triggers where
  apyDropThreshold : Option ℚ := none
  riskIncreaseThreshold : Option ℚ := none
  timeInterval : Option ℚ := none
  valueThreshold : Option ℚ := none
deriving Repr, DecidableEq

/-- `AutoRebalanceSettings`; `lastExecuted` is an optional timestamp (ms). -/
structure AutoRebalanceSettings where
  id : String
  walletAddress : String
  strategy : String
  triggers : Triggers
  maxSlippage : ℚ
  gasLimit : ℚ
  enabled : Bool
  createdAt : ℚ
  lastExecuted : Option ℚ := none
deriving Repr, DecidableEq

/-- The fields of the portfolio summary read by `evaluateTriggers`:
`portfolio.yieldMetrics.averageApy` and `portfolio.totalPnlPercentage`. -/
structure PortfolioSummary where
  averageApy : ℚ
  totalPnlPercentage : ℚ
deriving Repr, DecidableEq

/-- Time-based trigger: guarded by the JS truthiness of `triggers.timeInterval`
(so `0` and `undefined` disable it) and of `settings.lastExecuted`; fires when
`(Date.now() - lastExecuted) / 86400000 >= timeInterval`. -/
def timeTriggerMet (now : ℚ) (s : AutoRebalanceSettings) : Bool :=
  match s.triggers.timeInterval, s.lastExecuted with
  | some ti, some last => decide (ti ≠ 0) && decide ((now - last) / 86400000 ≥ ti)
  | _, _ => false

/-- APY-drop trigger: fires when `averageApy < apyDropThreshold`
(threshold truthy). -/
def apyTriggerMet (p : PortfolioSummary) (s : AutoRebalanceSettings) : Bool :=
  match s.triggers.apyDropThreshold with
  | some th => decide (th ≠ 0) && decide (p.averageApy < th)
  | none => false

/-- Value-change trigger: fires when `|totalPnlPercentage| >= valueThreshold`
(threshold truthy). -/
def valueTriggerMet (p : PortfolioSummary) (s : AutoRebalanceSettings) : Bool :=
  match s.triggers.valueThreshold with
  | some th => decide (th ≠ 0) && decide (|p.totalPnlPercentage| ≥ th)
  | none => false

/-- `evaluateTriggers`: the three early-return checks in source order. -/
def evaluateTriggers (now : ℚ) (p : PortfolioSummary)
    (s : AutoRebalanceSettings) : Bool :=
  timeTriggerMet now s || apyTriggerMet p s || valueTriggerMet p s

/-! ### Stable insertion sort (model of `Array.prototype.sort`)

`config.actions.sort((a, b) => a.priority - b.priority)` and
`.sort((a, b) => b.startedAt.getTime() - a.startedAt.getTime())` are
stable comparison sorts; we model them by a stable insertion sort over a
boolean "goes-before-or-equal" relation. -/

/-- Insert `a` into `l`, before the first element `b` with `le a b`
(elements already placed, which came earlier in the input, stay in front of
later equal ones — stability of the JS sort). -/
def insertBy (le : α → α → Bool) (a : α) : List α → List α
  | [] => [a]
  | b :: l => if le a b then a :: b :: l else b :: insertBy le a l

/-- Stable insertion sort. -/
def sortBy (le : α → α → Bool) : List α → List α
  | [] => []
  | a :: l => insertBy le a (sortBy le l)

/-! ### Rebalancing data model (`RebalancingService.ts`) -/

/-- `RebalanceExecution.status` union; `partialStatus` stands for the
source's string `"partial"` (a Lean keyword). -/
inductive ExecStatus where
  | pending | executing | completed | failed | partialStatus
deriving Repr, DecidableEq

/-- Status union of one entry of `RebalanceExecution.transactions`. -/
inductive TxStatus where
  | pending | confirmed | failed
deriving Repr, DecidableEq

/-- `RebalanceAction`; `type` is the source's string union
(`withdraw`/`deposit`/`swap`/`migrate`), `priority` the execution-order
number, `dependencies` the optional list of action ids. -/
structure RebalanceAction where
  type : String
  fromProtocol : Option String := none
  toProtocol : String
  fromChain : Option String := none
  toChain : String
  token : String
  amount : ℚ
  estimatedGas : ℚ
  priority : Int
  dependencies : Option (List String) := none
deriving Repr, DecidableEq

/-- One entry of `RebalanceExecution.transactions`. -/
structure TxRecord where
  actionId : String
  txHash : String
  status : TxStatus
  gasUsed : Option ℚ := none
  timestamp : ℚ
deriving Repr, DecidableEq

/-- `RebalanceExecution.results`. -/
structure ExecResults where
  totalGasUsed : ℚ
  totalValue : ℚ
  apyImprovement : ℚ
  executionTime : ℚ
deriving Repr, DecidableEq

/-- `RebalanceExecution`. -/
structure RebalanceExecution where
  id : String
  walletAddress : String
  strategy : String
  actions : List RebalanceAction
  status : ExecStatus
  transactions : List TxRecord
  results : ExecResults
  startedAt : ℚ
  completedAt : Option ℚ := none
  error : Option String := none
deriving Repr, DecidableEq

/-- The `config` argument of `executeRebalance`; `dryRun?: boolean` with JS
falsiness of `undefined` folded into `Bool` (default `false`). -/
structure RebalanceConfig where
  walletAddress : String
  strategy : String
  actions : List RebalanceAction
  slippage : Option ℚ := none
  gasPrice : Option ℚ := none
  dryRun : Bool := false
deriving Repr, DecidableEq

/-- Outcome of attempting one action against the protocol adapters:
`executeAction` either returns `{hash, gasUsed?}` or throws
(`submitError`), and `waitForConfirmation` afterwards either resolves or
throws (`confirmError`). -/
inductive ActionOutcome where
  | success (hash : String) (gasUsed : Option ℚ)
  | submitError (msg : String)
  | confirmError (hash : String) (gasUsed : Option ℚ) (msg : String)
deriving Repr, DecidableEq

/-- `actionId` as built at the `transactions.push` site:
`action.type + '_' + action.priority`. -/
def actionIdOf (a : RebalanceAction) : String :=
  a.type ++ "_" ++ toString a.priority

/-- The comparator `(a, b) => a.priority - b.priority` as a
goes-before-or-equal relation. -/
def priorityLe (a b : RebalanceAction) : Bool :=
  a.priority ≤ b.priority

/-- The comparator `(a, b) => b.startedAt - a.startedAt` (descending by
start time) as a goes-before-or-equal relation. -/
def startedAtDesc (a b : RebalanceExecution) : Bool :=
  b.startedAt ≤ a.startedAt

/-- Result of the `for (const action of sortedActions)` loop:
the `transactions` array, the accumulated `results.totalGasUsed`, the
message of the exception that aborted the loop (if any), and — as
instrumentation — the number of actions for which `executeAction` (a
protocol-adapter call) was invoked. -/
structure RunOutcome where
  transactions : List TxRecord
  totalGasUsed : ℚ
  error : Option String
  attempts : Nat
deriving Repr, DecidableEq

/-- The action loop of `executeRebalance` (source lines 246–265).  The
`oracle` gives the adapter outcome of the `i`-th attempted action.  A
successful action pushes a `pending` record, waits, then flips it to
`confirmed` with its `gasUsed` and adds `gasUsed || 0` to the total; a
throw from `executeAction` pushes nothing; a throw from
`waitForConfirmation` leaves the freshly pushed record `pending`.  Any
throw aborts the whole loop. -/
def runActions (oracle : Nat → ActionOutcome) (t : ℚ) :
    List RebalanceAction → Nat → RunOutcome
  | [], _ => { transactions := [], totalGasUsed := 0, error := none, attempts := 0 }
  | a :: rest, i =>
    match oracle i with
    | ActionOutcome.submitError msg =>
      { transactions := [], totalGasUsed := 0, error := some msg, attempts := 1 }
    | ActionOutcome.confirmError h _ msg =>
      { transactions := [{ actionId := actionIdOf a, txHash := h,
                           status := TxStatus.pending, gasUsed := none, timestamp := t }],
        totalGasUsed := 0, error := some msg, attempts := 1 }
    | ActionOutcome.success h g =>
      let r := runActions oracle t rest (i + 1)
      { transactions := { actionId := actionIdOf a, txHash := h,
                          status := TxStatus.confirmed, gasUsed := g, timestamp := t }
                        :: r.transactions,
        totalGasUsed := g.getD 0 + r.totalGasUsed,
        error := r.error,
        attempts := r.attempts + 1 }

/-- `simulateExecution`: sums `estimatedGas` over the actions and returns
the mock results object (`totalValue 1000`, `apyImprovement 2.5`,
`executionTime 30000`). -/
def simulateExecution (cfg : RebalanceConfig) : ExecResults :=
  let totalGas := cfg.actions.foldl (fun s a => s + a.estimatedGas) 0
  { totalGasUsed := totalGas, totalValue := 1000,
    apyImprovement := 5 / 2, executionTime := 30000 }

/-- `Map.set` on the execution queue: replace the value when the key is
present, else append (JS `Map` keeps insertion order). -/
def queueSet (q : List (String × RebalanceExecution)) (k : String)
    (v : RebalanceExecution) : List (String × RebalanceExecution) :=
  if q.any (fun p => p.1 = k) then
    q.map (fun p => if p.1 = k then (k, v) else p)
  else q ++ [(k, v)]

/-- What one call of `executeRebalance` produces: the returned (and, for a
non-dry run, enqueued — by reference, so the queue sees the final mutated
object) execution, the execution queue afterwards, and the number of
adapter-attempted actions. -/
structure ExecCallResult where
  execution : RebalanceExecution
  queue : List (String × RebalanceExecution)
  attempts : Nat
deriving Repr, DecidableEq

/-- `executeRebalance`.  Nondeterministic inputs of the source are passed
explicitly: `execId` (the `Date.now()`/`Math.random()` id), `tStart` /
`tEnd` (the `new Date()` clock readings at entry and at termination), and
`oracle` (adapter outcomes).  A dry run simulates and returns without
touching the queue; otherwise the actions are sorted by `priority`
(in place — the stored `actions` array ends up sorted) and run in order;
any throw is caught, setting `status := failed`, `error` and
`completedAt`; on success `calculateExecutionResults` overwrites
`apyImprovement := 2.0` and `totalValue := 1050`. -/
def executeRebalance (cfg : RebalanceConfig) (oracle : Nat → ActionOutcome)
    (execId : String) (tStart tEnd : ℚ)
    (queue : List (String × RebalanceExecution)) : ExecCallResult :=
  if cfg.dryRun then
    let res0 := simulateExecution cfg
    { execution :=
        { id := execId, walletAddress := cfg.walletAddress,
          strategy := cfg.strategy, actions := cfg.actions,
          status := ExecStatus.completed, transactions := [],
          results := { res0 with executionTime := tEnd - tStart },
          startedAt := tStart, completedAt := some tEnd, error := none },
      queue := queue, attempts := 0 }
  else
    let sorted := sortBy priorityLe cfg.actions
    let r := runActions oracle tEnd sorted 0
    match r.error with
    | none =>
      let ex : RebalanceExecution :=
        { id := execId, walletAddress := cfg.walletAddress,
          strategy := cfg.strategy, actions := sorted,
          status := ExecStatus.completed, transactions := r.transactions,
          results := { totalGasUsed := r.totalGasUsed, totalValue := 1050,
                       apyImprovement := 2, executionTime := tEnd - tStart },
          startedAt := tStart, completedAt := some tEnd, error := none }
      { execution := ex, queue := queueSet queue execId ex, attempts := r.attempts }
    | some msg =>
      let ex : RebalanceExecution :=
        { id := execId, walletAddress := cfg.walletAddress,
          strategy := cfg.strategy, actions := sorted,
          status := ExecStatus.failed, transactions := r.transactions,
          results := { totalGasUsed := r.totalGasUsed, totalValue := 0,
                       apyImprovement := 0, executionTime := 0 },
          startedAt := tStart, completedAt := some tEnd, error := some msg }
      { execution := ex, queue := queueSet queue execId ex, attempts := r.attempts }

/-- `getRebalanceHistory`: filter the queue's values by wallet, sort by
`startedAt` descending, `slice(offset, offset + limit)`. -/
def getRebalanceHistory (queue : List (String × RebalanceExecution))
    (wallet : String) (limit offset : Nat) : List RebalanceExecution :=
  let all := (queue.map Prod.snd).filter (fun e => e.walletAddress = wallet)
  let sorted := sortBy startedAtDesc all
  (sorted.drop offset).take limit

/-! ### Auto-rebalance trigger monitor
(`RebalancingService.checkAutoRebalanceTriggers`) -/

/-- One tick of `checkAutoRebalanceTriggers`, iterating over the
`autoRebalanceSettings` entries in order.  External data is supplied by
oracles: `portfolioOf` models `positionService.getPortfolioSummary`,
`recsOf wallet strategy` the action lists of
`getRebalanceRecommendations` (first recommendation's `actions` is what
gets executed), `oracleOf k` the adapter outcomes and `execIdOf k` the
generated id of the `k`-th execution started during this tick, `now` the
clock.  For each enabled setting whose triggers evaluate true and whose
recommendation list is nonempty, `executeRebalance` is called (no
`dryRun`) and `lastExecuted` is set; the source performs no check of the
execution queue for in-flight executions of the same wallet.  Returns the
updated settings entries and the execution queue. -/
def monitorTick (portfolioOf : String → PortfolioSummary)
    (recsOf : String → String → List (List RebalanceAction))
    (oracleOf : Nat → Nat → ActionOutcome) (execIdOf : Nat → String)
    (now : ℚ) :
    List (String × AutoRebalanceSettings) → Nat →
    List (String × RebalanceExecution) →
    List (String × AutoRebalanceSettings) × List (String × RebalanceExecution)
  | [], _, q => ([], q)
  | (w, s) :: rest, k, q =>
    if s.enabled then
      if evaluateTriggers now (portfolioOf w) s then
        match recsOf w s.strategy with
        | [] =>
          let pr := monitorTick portfolioOf recsOf oracleOf execIdOf now rest k q
          ((w, s) :: pr.1, pr.2)
        | acts :: _ =>
          let cfg : RebalanceConfig :=
            { walletAddress := w, strategy := s.strategy, actions := acts,
              slippage := some s.maxSlippage }
          let res := executeRebalance cfg (oracleOf k) (execIdOf k) now now q
          let s' := { s with lastExecuted := some now }
          let pr :=
            monitorTick portfolioOf recsOf oracleOf execIdOf now rest (k + 1) res.queue
          ((w, s') :: pr.1, pr.2)
      else
        let pr := monitorTick portfolioOf recsOf oracleOf execIdOf now rest k q
        ((w, s) :: pr.1, pr.2)
    else
      let pr := monitorTick portfolioOf recsOf oracleOf execIdOf now rest k q
      ((w, s) :: pr.1, pr.2)

/-! ### Signature protocol client
(`ChainSignatureService.executeCrossChainTx`, `src/init.sql`) -/

/-- Instrumented result of one `executeCrossChainTx` call: the outcome
(the signature handed to `executeOnTargetChain`, or the thrown error
message), and how many `requestSignature` calls, `getSignature` polls,
milliseconds of `setTimeout` sleep, and target-chain submissions were
made. -/
structure CrossChainTrace where
  result : Except String String
  requestCalls : Nat
  pollCalls : Nat
  sleepMs : Nat
  targetChainCalls : Nat
deriving Repr

/-- The `while (attempts < 30)` poll loop: `attempt` is the current value
of `attempts`, `remaining` the fuel `30 - attempts`.  `poll attempt` is
the outcome of `getSignature` on the `attempt`-th try (`none` models the
"Signature not ready yet" throw, swallowed by the `catch`).  A ready
signature breaks out immediately, before any sleep; an unready one sleeps
once (2000 ms in the source) and retries.  Returns the signature found
(if any), the number of polls, and the number of sleeps. -/
def pollLoop (poll : Nat → Option String) :
    Nat → Nat → Option String × Nat × Nat
  | _, 0 => (none, 0, 0)
  | attempt, r + 1 =>
    match poll attempt with
    | some sig => (some sig, 1, 0)
    | none =>
      let pr := pollLoop poll (attempt + 1) r
      (pr.1, pr.2.1 + 1, pr.2.2 + 1)

/-- `executeCrossChainTx`: one `requestSignature` call, then the poll loop
with the hard-coded bound `30` and sleep `2000` ms; on exhaustion it
throws `Timeout waiting for signature`, otherwise it submits on the
target chain with the obtained signature. -/
def executeCrossChainTx (poll : Nat → Option String) : CrossChainTrace :=
  let pr := pollLoop poll 0 30
  match pr.1 with
  | some sig =>
    { result := Except.ok sig, requestCalls := 1, pollCalls := pr.2.1,
      sleepMs := pr.2.2 * 2000, targetChainCalls := 1 }
  | none =>
    { result := Except.error "Timeout waiting for signature", requestCalls := 1,
      pollCalls := pr.2.1, sleepMs := pr.2.2 * 2000, targetChainCalls := 0 }

/-- Modelled from the spec (for comparison with `executeCrossChainTx`,
whose bounds the source hard-codes): `executeCrossChain(payload,
chainPath, maxAttempts, pollInterval)` as §4.2 words it — one
`requestSignature`, then up to `maxAttempts` polls sleeping
`pollInterval` between attempts, a `SignatureTimeout` error on
exhaustion. -/
def executeCrossChainSpec (maxAttempts pollInterval : Nat)
    (poll : Nat → Option String) : CrossChainTrace :=
  let pr := pollLoop poll 0 maxAttempts
  match pr.1 with
  | some sig =>
    { result := Except.ok sig, requestCalls := 1, pollCalls := pr.2.1,
      sleepMs := pr.2.2 * pollInterval, targetChainCalls := 1 }
  | none =>
    { result := Except.error "SignatureTimeout", requestCalls := 1,
      pollCalls := pr.2.1, sleepMs := pr.2.2 * pollInterval, targetChainCalls := 0 }

/-! ### Derived notions and concrete sample inputs -/

/-- Whether an adapter outcome is a success (no throw). -/
def ActionOutcome.isSuccess : ActionOutcome → Bool
  | ActionOutcome.success _ _ => true
  | _ => false

/-- The message of the exception an outcome raises (`none` for success). -/
def ActionOutcome.errMsg : ActionOutcome → Option String
  | ActionOutcome.success _ _ => none
  | ActionOutcome.submitError m => some m
  | ActionOutcome.confirmError _ _ m => some m

/-- Erase the `dependencies` annotation of an action. -/
def stripDeps (a : RebalanceAction) : RebalanceAction :=
  { a with dependencies := none }

/-- Sample action: a withdrawal with priority 1 and no dependencies. -/
def actW : RebalanceAction :=
  { type := "withdraw", fromProtocol := some "burrow", toProtocol := "aave",
    fromChain := some "near", toChain := "ethereum", token := "USDC",
    amount := 1000, estimatedGas := 100000, priority := 1 }

/-- Sample action: a deposit with priority 2 that depends on `withdraw_1`. -/
def actDep : RebalanceAction :=
  { type := "deposit", toProtocol := "aave", toChain := "ethereum",
    token := "USDC", amount := 1000, estimatedGas := 150000, priority := 2,
    dependencies := some ["withdraw_1"] }

/-- Sample action: an independent swap with priority 3 (no dependencies). -/
def actInd : RebalanceAction :=
  { type := "swap", toProtocol := "uniswap", toChain := "ethereum",
    token := "USDC", amount := 500, estimatedGas := 80000, priority := 3 }

/-- Sample action: a withdrawal with priority 1 declaring a dependency on
`deposit_2` (one half of a dependency cycle). -/
def actWCyc : RebalanceAction :=
  { type := "withdraw", toProtocol := "aave", toChain := "ethereum",
    token := "USDC", amount := 1000, estimatedGas := 100000, priority := 1,
    dependencies := some ["deposit_2"] }

/-- Sample action: a deposit with priority 2 declaring a dependency on
`withdraw_1` (the other half of the cycle). -/
def actDCyc : RebalanceAction :=
  { type := "deposit", toProtocol := "aave", toChain := "ethereum",
    token := "USDC", amount := 1000, estimatedGas := 150000, priority := 2,
    dependencies := some ["withdraw_1"] }

/-- Adapter oracle where the very first attempted action throws from
`executeAction`. -/
def oracleFail0 : Nat → ActionOutcome :=
  fun _ => ActionOutcome.submitError "insufficient funds"

/-- Adapter oracle where every attempted action succeeds. -/
def oracleOk : Nat → ActionOutcome :=
  fun i => ActionOutcome.success ("0xhash" ++ toString i) (some 21000)

/-- Adapter oracle where the first attempted action succeeds and the
second throws from `executeAction`. -/
def oracleFailSecond : Nat → ActionOutcome :=
  fun i => if i = 0 then ActionOutcome.success "0xa" (some 21000)
           else ActionOutcome.submitError "slippage exceeded"

/-- Sample config: plan `[actW, actDep, actInd]` (dependent chain plus an
independent action), not a dry run. -/
def cfgDepPlan : RebalanceConfig :=
  { walletAddress := "wallet1.near", strategy := "yield_optimization",
    actions := [actW, actDep, actInd] }

/-- Sample config: two independent actions, not a dry run. -/
def cfgTwoInd : RebalanceConfig :=
  { walletAddress := "wallet1.near", strategy := "yield_optimization",
    actions := [actW, actInd] }

/-- Sample config: the cyclic plan `[actWCyc, actDCyc]`, not a dry run. -/
def cfgCyclic : RebalanceConfig :=
  { walletAddress := "wallet1.near", strategy := "yield_optimization",
    actions := [actWCyc, actDCyc] }

/-- Sample config: a dry run over `[actW, actDep]`. -/
def cfgDry : RebalanceConfig :=
  { walletAddress := "wallet1.near", strategy := "yield_optimization",
    actions := [actW, actDep], dryRun := true }

/-- Signature-poll oracle: the signature becomes available on the 6th poll
(index 5). -/
def pollAt5 : Nat → Option String :=
  fun n => if n = 5 then some "sig5" else none

/-- Signature-poll oracle: the signature never becomes available. -/
def pollNever : Nat → Option String := fun _ => none

/-- Sample auto-rebalance settings: enabled, APY-floor trigger at 10, no
`lastExecuted`. -/
def settingsApy : AutoRebalanceSettings :=
  { id := "auto_1", walletAddress := "wallet1.near",
    strategy := "yield_optimization",
    triggers := { apyDropThreshold := some 10 }, maxSlippage := 1,
    gasLimit := 300000, enabled := true, createdAt := 0 }

/-- Sample in-flight execution for `wallet1.near`, still `executing`. -/
def exInFlight : RebalanceExecution :=
  { id := "exec_old", walletAddress := "wallet1.near",
    strategy := "yield_optimization", actions := [actW],
    status := ExecStatus.executing, transactions := [],
    results := { totalGasUsed := 0, totalValue := 0, apyImprovement := 0,
                 executionTime := 0 },
    startedAt := 50 }

/-- Sample portfolio with average APY 5 and no PnL change. -/
def portfolioLowApy : PortfolioSummary :=
  { averageApy := 5, totalPnlPercentage := 0 }

/-- Empty cache manager over `Nat` values, namespace `rebalancing`. -/
def cacheEmpty : CacheManager Nat :=
  { nspace := "rebalancing", cache := fun _ => none }

/-- Monitor environment: every wallet's portfolio reads as `portfolioLowApy`. -/
def portfolioOfLow : String → PortfolioSummary := fun _ => portfolioLowApy

/-- Monitor environment: every wallet/strategy has one recommendation whose
actions are `[actW]`. -/
def recsOfOne : String → String → List (List RebalanceAction) :=
  fun _ _ => [[actW]]

/-- Monitor environment: every execution's adapter outcomes succeed. -/
def oracleOfOk : Nat → Nat → ActionOutcome := fun _ => oracleOk

/-- Monitor environment: fresh execution ids per tick position. -/
def execIds : Nat → String := fun k => "exec_new_" ++ toString k

/-! ## Lemmas -/

/-- `insertBy` grows the list by one. -/
theorem length_insertBy (le : α → α → Bool) (a : α) (l : List α) :
    (insertBy le a l).length = l.length + 1 := by
  induction l with
  | nil => rfl
  | cons b l ih =>
    simp only [insertBy]
    cases h : le a b <;> simp [ih]

/-- `sortBy` preserves length. -/
theorem length_sortBy (le : α → α → Bool) (l : List α) :
    (sortBy le l).length = l.length := by
  induction l with
  | nil => rfl
  | cons a l ih => simp [sortBy, length_insertBy, ih]

/-- Membership in `insertBy`. -/
theorem mem_insertBy (le : α → α → Bool) (a x : α) (l : List α) :
    x ∈ insertBy le a l ↔ x = a ∨ x ∈ l := by
  induction l with
  | nil => simp [insertBy]
  | cons b l ih =>
    simp only [insertBy]
    by_cases h : le a b = true
    · rw [if_pos h]
      simp only [List.mem_cons]
    · rw [if_neg h]
      simp only [List.mem_cons, ih]
      tauto

/-- `sortBy` preserves membership. -/
theorem mem_sortBy (le : α → α → Bool) (x : α) (l : List α) :
    x ∈ sortBy le l ↔ x ∈ l := by
  induction l with
  | nil => simp [sortBy]
  | cons a l ih => simp [sortBy, mem_insertBy, ih]

/-! ## Claim theorems -/

/-- **C7**: after `set(key, value, ttlSeconds)`, a `get(key)` at a time
with `now - storedAt ≤ ttl·1000` returns the stored value; a `get(key)`
with `now - storedAt > ttl·1000` returns `null` and deletes the expired
entry as part of that read (lazy expiry on read, no sweep needed). -/
theorem cache_get_after_set {α : Type} (m : CacheManager α) (key : String)
    (v : α) (ttl tset tget : Int) :
    (((m.set tset key v ttl).get tget key).1
        = if tget - tset ≤ ttl * 1000 then some v else none) ∧
    (tget - tset > ttl * 1000 →
      ((m.set tset key v ttl).get tget key).1 = none ∧
      ((m.set tset key v ttl).get tget key).2.cache (m.getKey key) = none) := by
  refine ⟨?_, fun h => ⟨?_, ?_⟩⟩
  · simp [CacheManager.get, CacheManager.set, CacheManager.getKey, isExpired]
    split <;> split <;> first | rfl | (exfalso; omega)
  · simp [CacheManager.get, CacheManager.set, CacheManager.getKey, isExpired]
    split
    · rfl
    · exfalso; omega
  · simp [CacheManager.get, CacheManager.set, CacheManager.getKey, isExpired]
    split
    · simp [CacheManager.getKey]
    · exfalso; omega

/-- **C7 witness**: storing `7` at time `0` with a 300-second TTL and
reading at time `300001` ms (past the TTL) yields `null` and deletes the
entry. -/
theorem cache_get_after_set_witness :
    ((cacheEmpty.set 0 "positions" 7 300).get 300001 "positions").1 = none ∧
    ((cacheEmpty.set 0 "positions" 7 300).get 300001 "positions").2.cache
        (cacheEmpty.getKey "positions") = none :=
  (cache_get_after_set cacheEmpty "positions" 7 300 0 300001).2 (by decide)

/-- **C9**: when `settings.lastExecuted` is unset, the time-interval
trigger never fires, however large `now` is: `evaluateTriggers` reduces
to the APY-floor and value-change predicates alone and is independent of
the current time. -/
theorem interval_trigger_requires_lastExecuted (now now' : ℚ)
    (p : PortfolioSummary) (s : AutoRebalanceSettings)
    (h : s.lastExecuted = none) :
    evaluateTriggers now p s = (apyTriggerMet p s || valueTriggerMet p s) ∧
    evaluateTriggers now p s = evaluateTriggers now' p s := by
  have ht : ∀ n : ℚ, timeTriggerMet n s = false := by
    intro n
    unfold timeTriggerMet
    rw [h]
    cases s.triggers.timeInterval <;> rfl
  constructor <;> simp [evaluateTriggers, ht]

/-- **C9 witness**: with `lastExecuted` unset, triggers at time
`999999999` coincide with the time-free predicates and with triggers at
time `0`. -/
theorem interval_trigger_requires_lastExecuted_witness :
    evaluateTriggers 999999999 portfolioLowApy settingsApy
      = (apyTriggerMet portfolioLowApy settingsApy
          || valueTriggerMet portfolioLowApy settingsApy) ∧
    evaluateTriggers 999999999 portfolioLowApy settingsApy
      = evaluateTriggers 0 portfolioLowApy settingsApy :=
  interval_trigger_requires_lastExecuted 999999999 0 portfolioLowApy settingsApy rfl

/-- The poll loop makes at most `remaining` poll calls. -/
theorem pollLoop_polls_le (poll : Nat → Option String) :
    ∀ (r a : Nat), (pollLoop poll a r).2.1 ≤ r := by
  intro r
  induction r with
  | zero => intro a; simp [pollLoop]
  | succ r ih =>
    intro a
    simp only [pollLoop]
    cases h : poll a with
    | some sig => simp
    | none =>
      simp only []
      exact Nat.succ_le_succ (ih (a + 1))

/-- If no poll in the window succeeds, the loop exhausts it: no signature,
`remaining` polls and `remaining` sleeps. -/
theorem pollLoop_all_none (poll : Nat → Option String) :
    ∀ (r a : Nat), (∀ k, k < r → poll (a + k) = none) →
      pollLoop poll a r = (none, r, r) := by
  intro r
  induction r with
  | zero => intro a _; rfl
  | succ r ih =>
    intro a h
    have h0 : poll a = none := by simpa using h 0 (Nat.succ_pos r)
    have hr : pollLoop poll (a + 1) r = (none, r, r) := by
      apply ih
      intro k hk
      have h2 : a + 1 + k = a + (k + 1) := by omega
      rw [h2]
      exact h (k + 1) (by omega)
    simp [pollLoop, h0, hr]

/-- If the first ready poll is the `j`-th one (inside the window), the
loop returns that signature after `j + 1` polls and `j` sleeps. -/
theorem pollLoop_first_some (poll : Nat → Option String) (sig : String) :
    ∀ (j a r : Nat), j < r → poll (a + j) = some sig →
      (∀ i, i < j → poll (a + i) = none) →
      pollLoop poll a r = (some sig, j + 1, j) := by
  intro j
  induction j with
  | zero =>
    intro a r hj hsig _
    cases r with
    | zero => omega
    | succ r =>
      have h0 : poll a = some sig := by simpa using hsig
      simp [pollLoop, h0]
  | succ j ih =>
    intro a r hj hsig hpre
    cases r with
    | zero => omega
    | succ r =>
      have h0 : poll a = none := by simpa using hpre 0 (by omega)
      have hr : pollLoop poll (a + 1) r = (some sig, j + 1, j) := by
        apply ih
        · omega
        · have h2 : a + 1 + j = a + (j + 1) := by omega
          rw [h2]
          exact hsig
        · intro i hi
          have h2 : a + 1 + i = a + (i + 1) := by omega
          rw [h2]
          exact hpre (i + 1) (by omega)
      simp [pollLoop, h0, hr]

/-- **C5 (amended)**: `executeCrossChainTx` issues exactly one
`requestSignature` call, then polls at most 30 times; it returns the
signature as soon as one is available (after `k + 1` polls and `k` sleeps
of 2000 ms when the signature first appears on poll `k`), and throws
`Timeout waiting for signature` after exhausting all 30 attempts
(sleeping 2000 ms after each of the 30 unsuccessful polls, 60000 ms in
total).  The bound 30 and the 2000 ms interval are hard-coded in the
source, not per-deployment parameters. -/
theorem executeCrossChainTx_poll_behavior (poll : Nat → Option String) :
    (executeCrossChainTx poll).requestCalls = 1 ∧
    (executeCrossChainTx poll).pollCalls ≤ 30 ∧
    ((∀ k, k < 30 → poll k = none) →
      (executeCrossChainTx poll).result
          = Except.error "Timeout waiting for signature" ∧
      (executeCrossChainTx poll).pollCalls = 30 ∧
      (executeCrossChainTx poll).sleepMs = 60000) ∧
    (∀ k sig, k < 30 → poll k = some sig → (∀ j, j < k → poll j = none) →
      (executeCrossChainTx poll).result = Except.ok sig ∧
      (executeCrossChainTx poll).pollCalls = k + 1 ∧
      (executeCrossChainTx poll).sleepMs = k * 2000) := by
  refine ⟨?_, ?_, ?_, ?_⟩
  · unfold executeCrossChainTx
    cases h : (pollLoop poll 0 30).1 <;> simp [h]
  · have hle := pollLoop_polls_le poll 30 0
    unfold executeCrossChainTx
    cases h : (pollLoop poll 0 30).1 <;> simp [h, hle]
  · intro hall
    have hp : pollLoop poll 0 30 = (none, 30, 30) := by
      apply pollLoop_all_none
      intro k hk
      simpa using hall k hk
    unfold executeCrossChainTx
    rw [hp]
    refine ⟨rfl, rfl, rfl⟩
  · intro k sig hk hsig hpre
    have hp : pollLoop poll 0 30 = (some sig, k + 1, k) := by
      apply pollLoop_first_some poll sig k 0 30 hk
      · simpa using hsig
      · intro i hi
        simpa using hpre i hi
    unfold executeCrossChainTx
    rw [hp]
    refine ⟨rfl, rfl, rfl⟩

/-- **C5 witness**: with a signer that never answers, the call makes one
request, 30 polls, sleeps 60000 ms in total and throws the timeout
error. -/
theorem executeCrossChainTx_poll_behavior_witness :
    (executeCrossChainTx pollNever).result
        = Except.error "Timeout waiting for signature" ∧
    (executeCrossChainTx pollNever).pollCalls = 30 ∧
    (executeCrossChainTx pollNever).sleepMs = 60000 :=
  (executeCrossChainTx_poll_behavior pollNever).2.2.1 (fun _ _ => rfl)

/-- **C5 counterexample**: `executeCrossChainTx` takes no
`maxAttempts`/`pollInterval` arguments — its bounds are hard-coded to 30
attempts and 2000 ms.  For a signer whose signature is ready on the 6th
poll, a deployment configured per the spec with `maxAttempts = 2`,
`pollInterval = 500` would time out after 2 polls, while the source
function polls 6 times, sleeps 5 × 2000 = 10000 ms and succeeds. -/
theorem hardcoded_poll_bounds_counterexample :
    (executeCrossChainSpec 2 500 pollAt5).result = Except.error "SignatureTimeout" ∧
    (executeCrossChainSpec 2 500 pollAt5).pollCalls = 2 ∧
    (executeCrossChainTx pollAt5).result = Except.ok "sig5" ∧
    (executeCrossChainTx pollAt5).pollCalls = 6 ∧
    (executeCrossChainTx pollAt5).sleepMs = 10000 :=
  ⟨rfl, rfl, rfl, rfl, rfl⟩

/-- No transaction record ever carries status `failed`: the loop only ever
pushes `pending` records and flips them to `confirmed`. -/
theorem runActions_no_failed_tx (oracle : Nat → ActionOutcome) (t : ℚ) :
    ∀ (acts : List RebalanceAction) (i : Nat) (tx : TxRecord),
      tx ∈ (runActions oracle t acts i).transactions →
      tx.status ≠ TxStatus.failed := by
  intro acts
  induction acts with
  | nil => intro i tx h; simp [runActions] at h
  | cons a rest ih =>
    intro i tx h
    cases ho : oracle i with
    | submitError msg =>
      simp [runActions, ho] at h
    | confirmError hh g msg =>
      simp [runActions, ho] at h
      rw [h]
      simp
    | success hh g =>
      simp [runActions, ho] at h
      rcases h with h | h
      · rw [h]; simp
      · exact ih (i + 1) tx h

/-- The loop finishes without an exception iff every action produced a
transaction record and every record is `confirmed`. -/
theorem runActions_error_none_iff (oracle : Nat → ActionOutcome) (t : ℚ) :
    ∀ (acts : List RebalanceAction) (i : Nat),
      (runActions oracle t acts i).error = none ↔
      ((runActions oracle t acts i).transactions.length = acts.length ∧
        ∀ tx ∈ (runActions oracle t acts i).transactions,
          tx.status = TxStatus.confirmed) := by
  intro acts
  induction acts with
  | nil => intro i; simp [runActions]
  | cons a rest ih =>
    intro i
    cases ho : oracle i with
    | submitError msg => simp [runActions, ho]
    | confirmError hh g msg => simp [runActions, ho]
    | success hh g =>
      simp only [runActions, ho, List.length_cons, List.mem_cons, Nat.add_right_cancel_iff]
      rw [ih (i + 1)]
      constructor
      · rintro ⟨hlen, hall⟩
        refine ⟨hlen, ?_⟩
        rintro tx (h | h)
        · rw [h]
        · exact hall tx h
      · rintro ⟨hlen, hall⟩
        exact ⟨hlen, fun tx h => hall tx (Or.inr h)⟩

/-- If the `j`-th attempted action (0-based in execution order) is the
first to throw, the loop stops there: exactly `j + 1` actions are
attempted, the loop's exception is that action's error, and at most
`j + 1` records exist. -/
theorem runActions_first_fail (oracle : Nat → ActionOutcome) (t : ℚ) :
    ∀ (j : Nat) (acts : List RebalanceAction) (i : Nat),
      j < acts.length →
      (∀ m, m < j → (oracle (i + m)).isSuccess = true) →
      (oracle (i + j)).isSuccess = false →
      (runActions oracle t acts i).attempts = j + 1 ∧
      (runActions oracle t acts i).error = (oracle (i + j)).errMsg ∧
      (runActions oracle t acts i).transactions.length ≤ j + 1 := by
  intro j
  induction j with
  | zero =>
    intro acts i hlen hpre hfail
    rw [Nat.add_zero] at hfail
    cases acts with
    | nil => simp at hlen
    | cons a rest =>
      cases ho : oracle i with
      | success hh g =>
        rw [ho] at hfail
        simp [ActionOutcome.isSuccess] at hfail
      | submitError msg =>
        simp [runActions, ho, ActionOutcome.errMsg]
      | confirmError hh g msg =>
        simp [runActions, ho, ActionOutcome.errMsg]
  | succ j ih =>
    intro acts i hlen hpre hfail
    cases acts with
    | nil => simp at hlen
    | cons a rest =>
      have h0 : (oracle i).isSuccess = true := by
        simpa using hpre 0 (Nat.succ_pos j)
      cases ho : oracle i with
      | submitError msg =>
        rw [ho] at h0
        simp [ActionOutcome.isSuccess] at h0
      | confirmError hh g msg =>
        rw [ho] at h0
        simp [ActionOutcome.isSuccess] at h0
      | success hh g =>
        have hrec := ih rest (i + 1) (by simpa using Nat.lt_of_succ_lt_succ hlen)
          (by
            intro m hm
            have h2 : i + 1 + m = i + (m + 1) := by omega
            rw [h2]
            exact hpre (m + 1) (by omega))
          (by
            have h2 : i + 1 + j = i + (j + 1) := by omega
            rw [h2]
            exact hfail)
        obtain ⟨hatt, herr, hlen2⟩ := hrec
        have hidx : i + 1 + j = i + (j + 1) := by omega
        rw [hidx] at herr
        refine ⟨?_, ?_, ?_⟩
        · simp [runActions, ho, hatt]
        · simp [runActions, ho, herr]
        · simp only [runActions, ho, List.length_cons]
          omega

/-- Not-successful outcomes carry an error message. -/
theorem errMsg_isSome_of_not_success (o : ActionOutcome)
    (h : o.isSuccess = false) : ∃ m, o.errMsg = some m := by
  cases o with
  | success hh g => simp [ActionOutcome.isSuccess] at h
  | submitError m => exact ⟨m, rfl⟩
  | confirmError hh g m => exact ⟨m, rfl⟩

/-- Shape of a non-dry-run `executeRebalance` call: the execution's
`transactions`/`error` come from the action loop over the
priority-sorted plan, the terminal status is `completed` or `failed`
according to whether the loop threw, `completedAt` is always set, and
the (mutated-by-reference) execution is stored in the queue under its
id. -/
theorem executeRebalance_not_dry (cfg : RebalanceConfig)
    (oracle : Nat → ActionOutcome) (execId : String) (tS tE : ℚ)
    (queue : List (String × RebalanceExecution))
    (hdry : cfg.dryRun = false) :
    (executeRebalance cfg oracle execId tS tE queue).attempts
        = (runActions oracle tE (sortBy priorityLe cfg.actions) 0).attempts ∧
    (executeRebalance cfg oracle execId tS tE queue).execution.transactions
        = (runActions oracle tE (sortBy priorityLe cfg.actions) 0).transactions ∧
    (executeRebalance cfg oracle execId tS tE queue).execution.error
        = (runActions oracle tE (sortBy priorityLe cfg.actions) 0).error ∧
    (executeRebalance cfg oracle execId tS tE queue).execution.status
        = (match (runActions oracle tE (sortBy priorityLe cfg.actions) 0).error with
           | none => ExecStatus.completed
           | some _ => ExecStatus.failed) ∧
    (executeRebalance cfg oracle execId tS tE queue).execution.completedAt
        = some tE ∧
    (executeRebalance cfg oracle execId tS tE queue).queue
        = queueSet queue execId
            (executeRebalance cfg oracle execId tS tE queue).execution ∧
    (executeRebalance cfg oracle execId tS tE queue).execution.walletAddress
        = cfg.walletAddress := by
  unfold executeRebalance
  rw [hdry]
  cases he : (runActions oracle tE (sortBy priorityLe cfg.actions) 0).error <;>
    simp [he]

/-- **C1 (amended)**: `executeRebalance` never consults `dependencies` and
never records a per-action "dependency failed" state.  When the `j`-th
action in priority order is the first to fail, the whole run aborts at
that point: exactly `j + 1` actions are attempted (so no later action —
dependent on the failed one or not — is ever attempted and no adapter
call is issued for it), the failure is recorded as the Execution-level
`error` with `status = failed`, and no transaction record is ever marked
`failed` (so in particular none with reason "dependency failed"
exists). -/
theorem failure_aborts_remaining_actions (cfg : RebalanceConfig)
    (oracle : Nat → ActionOutcome) (execId : String) (tS tE : ℚ)
    (queue : List (String × RebalanceExecution)) (j : Nat)
    (hdry : cfg.dryRun = false)
    (hj : j < (sortBy priorityLe cfg.actions).length)
    (hpre : ∀ m, m < j → (oracle m).isSuccess = true)
    (hfail : (oracle j).isSuccess = false) :
    (executeRebalance cfg oracle execId tS tE queue).attempts = j + 1 ∧
    (executeRebalance cfg oracle execId tS tE queue).execution.status
        = ExecStatus.failed ∧
    (executeRebalance cfg oracle execId tS tE queue).execution.error
        = (oracle j).errMsg ∧
    (executeRebalance cfg oracle execId tS tE queue).execution.transactions.length
        ≤ j + 1 ∧
    ∀ tx ∈ (executeRebalance cfg oracle execId tS tE queue).execution.transactions,
      tx.status ≠ TxStatus.failed := by
  obtain ⟨hatt, htx, herr, hstat, -, -, -⟩ :=
    executeRebalance_not_dry cfg oracle execId tS tE queue hdry
  have hrun := runActions_first_fail oracle tE j (sortBy priorityLe cfg.actions) 0 hj
    (by simpa using hpre) (by simpa using hfail)
  obtain ⟨hratt, hrerr, hrlen⟩ := hrun
  rw [Nat.zero_add] at hrerr
  obtain ⟨msg, hmsg⟩ := errMsg_isSome_of_not_success (oracle j) hfail
  refine ⟨?_, ?_, ?_, ?_, ?_⟩
  · rw [hatt, hratt]
  · rw [hstat, hrerr, hmsg]
  · rw [herr, hrerr]
  · rw [htx]
    exact hrlen
  · intro tx h
    rw [htx] at h
    exact runActions_no_failed_tx oracle tE (sortBy priorityLe cfg.actions) 0 tx h

/-- **C1 witness**: on the plan `[actW, actDep, actInd]` whose first action
fails, only one action is attempted and the run ends `failed`. -/
theorem failure_aborts_remaining_actions_witness :
    (executeRebalance cfgDepPlan oracleFail0 "exec_w1" 0 5 []).attempts = 1 ∧
    (executeRebalance cfgDepPlan oracleFail0 "exec_w1" 0 5 []).execution.status
        = ExecStatus.failed ∧
    (executeRebalance cfgDepPlan oracleFail0 "exec_w1" 0 5 []).execution.error
        = (oracleFail0 0).errMsg ∧
    (executeRebalance cfgDepPlan oracleFail0 "exec_w1" 0 5 []).execution.transactions.length
        ≤ 1 := by
  have h := failure_aborts_remaining_actions cfgDepPlan oracleFail0 "exec_w1" 0 5 [] 0
    rfl (by decide) (fun m hm => absurd hm m.not_lt_zero) rfl
  exact ⟨h.1, h.2.1, h.2.2.1, h.2.2.2.1⟩

/-- **C1 counterexample**: plan `[actW (p1), actDep (p2, depends on
withdraw_1), actInd (p3, independent)]`; `actW` fails.  The claim demands
a `failed` record with reason "dependency failed" for `actDep` and that
the independent `actInd` still be attempted; instead the run aborts after
1 of 3 attempts, records no per-action entry at all (`transactions = []`,
so no "dependency failed" record exists), and never attempts the
independent `actInd`. -/
theorem dependency_failure_counterexample :
    (executeRebalance cfgDepPlan oracleFail0 "exec_1" 0 5 []).attempts = 1 ∧
    (executeRebalance cfgDepPlan oracleFail0 "exec_1" 0 5 []).execution.transactions
        = [] ∧
    (executeRebalance cfgDepPlan oracleFail0 "exec_1" 0 5 []).execution.status
        = ExecStatus.failed ∧
    (executeRebalance cfgDepPlan oracleFail0 "exec_1" 0 5 []).execution.error
        = some "insufficient funds" :=
  ⟨rfl, rfl, rfl, rfl⟩

/-- **C2 (amended)**: a non-dry-run `executeRebalance` terminates with
status `completed` or `failed` — never `partial`.  `completed` holds iff
every action of the plan yielded a transaction record and every record is
`confirmed`; any failure yields `failed`, even when earlier actions had
already confirmed (the run aborts at the first failure). -/
theorem terminal_status_completed_or_failed (cfg : RebalanceConfig)
    (oracle : Nat → ActionOutcome) (execId : String) (tS tE : ℚ)
    (queue : List (String × RebalanceExecution))
    (hdry : cfg.dryRun = false) :
    ((executeRebalance cfg oracle execId tS tE queue).execution.status
        = ExecStatus.completed ∨
     (executeRebalance cfg oracle execId tS tE queue).execution.status
        = ExecStatus.failed) ∧
    ((executeRebalance cfg oracle execId tS tE queue).execution.status
        = ExecStatus.completed ↔
      ((executeRebalance cfg oracle execId tS tE queue).execution.transactions.length
          = cfg.actions.length ∧
       ∀ tx ∈ (executeRebalance cfg oracle execId tS tE queue).execution.transactions,
         tx.status = TxStatus.confirmed)) ∧
    (executeRebalance cfg oracle execId tS tE queue).execution.status
        ≠ ExecStatus.partialStatus := by
  obtain ⟨-, htx, -, hstat, -, -, -⟩ :=
    executeRebalance_not_dry cfg oracle execId tS tE queue hdry
  have hiff := runActions_error_none_iff oracle tE (sortBy priorityLe cfg.actions) 0
  rw [length_sortBy] at hiff
  rw [hstat, htx]
  cases he : (runActions oracle tE (sortBy priorityLe cfg.actions) 0).error with
  | none =>
    rw [he] at hiff
    simp only [true_iff] at hiff
    exact ⟨Or.inl rfl, ⟨fun _ => hiff, fun _ => rfl⟩, by simp⟩
  | some msg =>
    rw [he] at hiff
    refine ⟨Or.inr rfl, ⟨fun h => absurd h (by simp), fun h => ?_⟩, by simp⟩
    exact absurd (hiff.2 h) (by simp)

/-- **C2 witness**: two independent actions where the second fails — the
status is `failed` (and in particular not `partial`). -/
theorem terminal_status_completed_or_failed_witness :
    ((executeRebalance cfgTwoInd oracleFailSecond "exec_w2" 0 5 []).execution.status
        = ExecStatus.completed ∨
     (executeRebalance cfgTwoInd oracleFailSecond "exec_w2" 0 5 []).execution.status
        = ExecStatus.failed) ∧
    (executeRebalance cfgTwoInd oracleFailSecond "exec_w2" 0 5 []).execution.status
        ≠ ExecStatus.partialStatus := by
  have h := terminal_status_completed_or_failed cfgTwoInd oracleFailSecond
    "exec_w2" 0 5 [] rfl
  exact ⟨h.1, h.2.2⟩

/-- **C2 counterexample**: two independent actions, the first succeeds
(its record is `confirmed`) and the second fails.  The claim demands
terminal status `partial`; the source sets `failed` — and this `failed`
run did not abort "before any Action reached confirmed". -/
theorem partial_status_counterexample :
    (executeRebalance cfgTwoInd oracleFailSecond "exec_2" 0 5 []).execution.status
        = ExecStatus.failed ∧
    (executeRebalance cfgTwoInd oracleFailSecond "exec_2" 0 5 []).execution.transactions
        = [{ actionId := "withdraw_1", txHash := "0xa",
             status := TxStatus.confirmed, gasUsed := some 21000, timestamp := 5 }] :=
  ⟨rfl, rfl⟩

/-- **C8**: a non-dry-run `executeRebalance` always resolves with an
Execution (the embedding is total: the source's `catch` swallows every
action error); the returned record has `error` set iff `status = failed`,
and `completedAt` is set at termination (in both outcomes). -/
theorem rebalance_error_iff_failed (cfg : RebalanceConfig)
    (oracle : Nat → ActionOutcome) (execId : String) (tS tE : ℚ)
    (queue : List (String × RebalanceExecution))
    (hdry : cfg.dryRun = false) :
    ((executeRebalance cfg oracle execId tS tE queue).execution.error ≠ none ↔
      (executeRebalance cfg oracle execId tS tE queue).execution.status
        = ExecStatus.failed) ∧
    (executeRebalance cfg oracle execId tS tE queue).execution.completedAt
        = some tE := by
  obtain ⟨-, -, herr, hstat, hcomp, -, -⟩ :=
    executeRebalance_not_dry cfg oracle execId tS tE queue hdry
  refine ⟨?_, hcomp⟩
  rw [herr, hstat]
  cases (runActions oracle tE (sortBy priorityLe cfg.actions) 0).error <;> simp

/-- **C8 witness**: the failed two-action run has `error` set, `status =
failed` and `completedAt` set. -/
theorem rebalance_error_iff_failed_witness :
    ((executeRebalance cfgTwoInd oracleFailSecond "exec_w8" 0 5 []).execution.error
        ≠ none ↔
      (executeRebalance cfgTwoInd oracleFailSecond "exec_w8" 0 5 []).execution.status
        = ExecStatus.failed) ∧
    (executeRebalance cfgTwoInd oracleFailSecond "exec_w8" 0 5 []).execution.completedAt
        = some 5 :=
  rebalance_error_iff_failed cfgTwoInd oracleFailSecond "exec_w8" 0 5 [] rfl

/-- `insertBy` on priorities commutes with erasing `dependencies`. -/
theorem insertBy_stripDeps (a : RebalanceAction) :
    ∀ (l : List RebalanceAction),
      insertBy priorityLe (stripDeps a) (l.map stripDeps)
        = (insertBy priorityLe a l).map stripDeps := by
  intro l
  induction l with
  | nil => rfl
  | cons b l ih =>
    simp only [List.map_cons, insertBy]
    have hp : priorityLe (stripDeps a) (stripDeps b) = priorityLe a b := rfl
    rw [hp]
    by_cases h : priorityLe a b = true
    · rw [if_pos h, if_pos h]
      rfl
    · rw [if_neg h, if_neg h]
      rw [List.map_cons, ih]

/-- Priority sorting commutes with erasing `dependencies`. -/
theorem sortBy_stripDeps :
    ∀ (l : List RebalanceAction),
      sortBy priorityLe (l.map stripDeps)
        = (sortBy priorityLe l).map stripDeps := by
  intro l
  induction l with
  | nil => rfl
  | cons a l ih =>
    simp only [List.map_cons, sortBy]
    rw [ih, insertBy_stripDeps]

/-- The action loop is blind to `dependencies`. -/
theorem runActions_stripDeps (oracle : Nat → ActionOutcome) (t : ℚ) :
    ∀ (acts : List RebalanceAction) (i : Nat),
      runActions oracle t (acts.map stripDeps) i = runActions oracle t acts i := by
  intro acts
  induction acts with
  | nil => intro i; rfl
  | cons a rest ih =>
    intro i
    cases ho : oracle i with
    | submitError msg => simp [runActions, ho]
    | confirmError hh g msg =>
      simp [runActions, ho]
      rfl
    | success hh g =>
      simp [runActions, ho, ih (i + 1)]
      rfl

/-- **C3 (amended)**: `executeRebalance` performs no dependency-graph
validation at all: erasing every `dependsOn` annotation (in particular,
breaking any cycle) changes nothing about the run — the status,
transaction records, error and the number of attempted actions are
identical.  A cyclic plan is executed exactly like an acyclic one, in
priority order, instead of being rejected. -/
theorem rebalance_ignores_dependencies (cfg : RebalanceConfig)
    (oracle : Nat → ActionOutcome) (execId : String) (tS tE : ℚ)
    (queue : List (String × RebalanceExecution)) :
    (executeRebalance { cfg with actions := cfg.actions.map stripDeps }
        oracle execId tS tE queue).execution.status
      = (executeRebalance cfg oracle execId tS tE queue).execution.status ∧
    (executeRebalance { cfg with actions := cfg.actions.map stripDeps }
        oracle execId tS tE queue).execution.transactions
      = (executeRebalance cfg oracle execId tS tE queue).execution.transactions ∧
    (executeRebalance { cfg with actions := cfg.actions.map stripDeps }
        oracle execId tS tE queue).execution.error
      = (executeRebalance cfg oracle execId tS tE queue).execution.error ∧
    (executeRebalance { cfg with actions := cfg.actions.map stripDeps }
        oracle execId tS tE queue).attempts
      = (executeRebalance cfg oracle execId tS tE queue).attempts := by
  by_cases hd : cfg.dryRun = true
  · simp [executeRebalance, hd]
  · have hd' : cfg.dryRun = false := by
      cases h : cfg.dryRun
      · rfl
      · exact absurd h hd
    obtain ⟨hatt, htx, herr, hstat, -, -, -⟩ :=
      executeRebalance_not_dry cfg oracle execId tS tE queue hd'
    obtain ⟨hatt', htx', herr', hstat', -, -, -⟩ :=
      executeRebalance_not_dry { cfg with actions := cfg.actions.map stripDeps }
        oracle execId tS tE queue hd'
    rw [show ({ cfg with actions := cfg.actions.map stripDeps } :
          RebalanceConfig).actions = cfg.actions.map stripDeps from rfl,
        sortBy_stripDeps, runActions_stripDeps] at hatt' htx' herr' hstat'
    refine ⟨?_, ?_, ?_, ?_⟩
    · rw [hstat, hstat']
    · rw [htx, htx']
    · rw [herr, herr']
    · rw [hatt, hatt']

/-- **C3 counterexample**: the plan `[actWCyc, actDCyc]` has a dependency
cycle (`withdraw_1` depends on `deposit_2` and vice versa).  The claim
demands rejection with status `failed` and no action attempted; instead
both actions are attempted and the run completes. -/
theorem cyclic_plan_counterexample :
    (executeRebalance cfgCyclic oracleOk "exec_3" 0 5 []).execution.status
        = ExecStatus.completed ∧
    (executeRebalance cfgCyclic oracleOk "exec_3" 0 5 []).attempts = 2 ∧
    (executeRebalance cfgCyclic oracleOk "exec_3" 0 5 []).execution.error = none :=
  ⟨rfl, rfl, rfl⟩

/-- **C4**: a dry-run `executeRebalance` consults no adapter oracle at
all (`attempts = 0`; two arbitrary oracles give the very same result, so
no signature request and no chain-adapter operation can influence or be
caused by it — the service's dry-run path never touches the protocol
handlers), leaves the queue untouched, and returns a terminal Execution
with `status = completed`, `completedAt` set and the simulated results
(sum of `estimatedGas`, mock value 1000, APY improvement 2.5, execution
time `tEnd - tStart`). -/
theorem dryRun_no_adapter_calls (cfg : RebalanceConfig)
    (oracle oracle' : Nat → ActionOutcome) (execId : String) (tS tE : ℚ)
    (queue : List (String × RebalanceExecution))
    (h : cfg.dryRun = true) :
    (executeRebalance cfg oracle execId tS tE queue).attempts = 0 ∧
    (executeRebalance cfg oracle execId tS tE queue).queue = queue ∧
    (executeRebalance cfg oracle execId tS tE queue).execution.status
        = ExecStatus.completed ∧
    (executeRebalance cfg oracle execId tS tE queue).execution.completedAt
        = some tE ∧
    (executeRebalance cfg oracle execId tS tE queue).execution.results
        = { simulateExecution cfg with executionTime := tE - tS } ∧
    executeRebalance cfg oracle' execId tS tE queue
        = executeRebalance cfg oracle execId tS tE queue := by
  simp [executeRebalance, h]

/-- **C4 witness**: a concrete dry run gives the same Execution under a
failing oracle and a succeeding oracle, attempts nothing, and completes. -/
theorem dryRun_no_adapter_calls_witness :
    (executeRebalance cfgDry oracleFail0 "exec_4" 0 7 []).attempts = 0 ∧
    (executeRebalance cfgDry oracleFail0 "exec_4" 0 7 []).queue = [] ∧
    (executeRebalance cfgDry oracleFail0 "exec_4" 0 7 []).execution.status
        = ExecStatus.completed ∧
    (executeRebalance cfgDry oracleFail0 "exec_4" 0 7 []).execution.completedAt
        = some 7 ∧
    (executeRebalance cfgDry oracleFail0 "exec_4" 0 7 []).execution.results
        = { simulateExecution cfgDry with executionTime := 7 - 0 } ∧
    executeRebalance cfgDry oracleOk "exec_4" 0 7 []
        = executeRebalance cfgDry oracleFail0 "exec_4" 0 7 [] :=
  dryRun_no_adapter_calls cfgDry oracleFail0 oracleOk "exec_4" 0 7 [] rfl

/-- Everything `getRebalanceHistory` returns is a value of the queue. -/
theorem mem_getRebalanceHistory (queue : List (String × RebalanceExecution))
    (wallet : String) (limit offset : Nat) (e : RebalanceExecution)
    (h : e ∈ getRebalanceHistory queue wallet limit offset) :
    ∃ k, (k, e) ∈ queue := by
  unfold getRebalanceHistory at h
  have h1 : e ∈ sortBy startedAtDesc
      ((queue.map Prod.snd).filter fun x => x.walletAddress = wallet) :=
    List.mem_of_mem_drop (List.mem_of_mem_take h)
  have h2 := (mem_sortBy _ _ _).1 h1
  have h3 : e ∈ queue.map Prod.snd := List.mem_of_mem_filter h2
  obtain ⟨p, hp, hpe⟩ := List.mem_map.1 h3
  exact ⟨p.1, by rw [show (p.1, e) = p from by rw [← hpe]]; exact hp⟩

/-- **C10**: a dry-run `executeRebalance` never inserts the simulated
Execution into the in-memory execution queue, and `getRebalanceHistory`
only ever returns queue entries — so no history read can return an
Execution produced with `dryRun = true`. -/
theorem dryRun_history_frame (cfg : RebalanceConfig)
    (oracle : Nat → ActionOutcome) (execId : String) (tS tE : ℚ)
    (queue : List (String × RebalanceExecution))
    (wallet : String) (limit offset : Nat)
    (h : cfg.dryRun = true) :
    (executeRebalance cfg oracle execId tS tE queue).queue = queue ∧
    ∀ e ∈ getRebalanceHistory (executeRebalance cfg oracle execId tS tE queue).queue
        wallet limit offset, ∃ k, (k, e) ∈ queue := by
  have hq : (executeRebalance cfg oracle execId tS tE queue).queue = queue := by
    simp [executeRebalance, h]
  refine ⟨hq, ?_⟩
  rw [hq]
  intro e he
  exact mem_getRebalanceHistory queue wallet limit offset e he

/-- **C10 witness**: a concrete dry run against a queue holding one
in-flight execution leaves the queue exactly as it was. -/
theorem dryRun_history_frame_witness :
    (executeRebalance cfgDry oracleFail0 "exec_10" 0 7
        [("exec_old", exInFlight)]).queue = [("exec_old", exInFlight)] :=
  (dryRun_history_frame cfgDry oracleFail0 "exec_10" 0 7
    [("exec_old", exInFlight)] "wallet1.near" 50 0 rfl).1

/-- `Map.set` with a key absent from the queue appends. -/
theorem queueSet_fresh (q : List (String × RebalanceExecution)) (k : String)
    (v : RebalanceExecution) (h : q.any (fun p => p.1 = k) = false) :
    queueSet q k v = q ++ [(k, v)] := by
  unfold queueSet
  rw [h]
  rfl

/-- **C6 (amended)**: `checkAutoRebalanceTriggers` performs no in-flight
check whatsoever: for an enabled wallet whose triggers evaluate true and
whose recommendation list is nonempty, exactly one new Execution is
produced and appended to the queue — for **every** prior queue content,
including queues already holding a `pending`/`executing` Execution of the
same wallet. -/
theorem monitor_enqueue_ignores_queue (portfolioOf : String → PortfolioSummary)
    (recsOf : String → String → List (List RebalanceAction))
    (oracleOf : Nat → Nat → ActionOutcome) (execIdOf : Nat → String)
    (now : ℚ) (w : String) (s : AutoRebalanceSettings)
    (q : List (String × RebalanceExecution))
    (acts : List RebalanceAction) (more : List (List RebalanceAction))
    (hen : s.enabled = true)
    (htrig : evaluateTriggers now (portfolioOf w) s = true)
    (hrecs : recsOf w s.strategy = acts :: more)
    (hfresh : q.any (fun p => p.1 = execIdOf 0) = false) :
    (monitorTick portfolioOf recsOf oracleOf execIdOf now [(w, s)] 0 q).2
      = q ++ [(execIdOf 0,
          (executeRebalance
            { walletAddress := w, strategy := s.strategy, actions := acts,
              slippage := some s.maxSlippage }
            (oracleOf 0) (execIdOf 0) now now q).execution)] ∧
    (executeRebalance
        { walletAddress := w, strategy := s.strategy, actions := acts,
          slippage := some s.maxSlippage }
        (oracleOf 0) (execIdOf 0) now now q).execution.walletAddress = w := by
  obtain ⟨-, -, -, -, -, hqueue, hwallet⟩ :=
    executeRebalance_not_dry
      { walletAddress := w, strategy := s.strategy, actions := acts,
        slippage := some s.maxSlippage }
      (oracleOf 0) (execIdOf 0) now now q rfl
  constructor
  · simp only [monitorTick, hen, htrig, hrecs, if_pos]
    rw [hqueue, queueSet_fresh _ _ _ hfresh]
  · exact hwallet

/-- **C6 witness**: concrete tick for `wallet1.near` (enabled, APY 5 below
the floor 10, one recommendation) against a queue already holding an
`executing` Execution of that same wallet: a second Execution is appended
anyway. -/
theorem monitor_enqueue_ignores_queue_witness :
    (monitorTick portfolioOfLow recsOfOne oracleOfOk execIds 100
        [("wallet1.near", settingsApy)] 0 [("exec_old", exInFlight)]).2
      = [("exec_old", exInFlight)] ++ [("exec_new_0",
          (executeRebalance
            { walletAddress := "wallet1.near", strategy := settingsApy.strategy,
              actions := [actW], slippage := some settingsApy.maxSlippage }
            (oracleOfOk 0) (execIds 0) 100 100
            [("exec_old", exInFlight)]).execution)] ∧
    (executeRebalance
        { walletAddress := "wallet1.near", strategy := settingsApy.strategy,
          actions := [actW], slippage := some settingsApy.maxSlippage }
        (oracleOfOk 0) (execIds 0) 100 100
        [("exec_old", exInFlight)]).execution.walletAddress = "wallet1.near" :=
  monitor_enqueue_ignores_queue portfolioOfLow recsOfOne oracleOfOk execIds 100
    "wallet1.near" settingsApy [("exec_old", exInFlight)] [actW] []
    rfl (by decide) rfl (by decide)

/-- **C6 counterexample**: with an `executing` Execution for
`wallet1.near` already in the queue, a tick whose trigger is met enqueues
a second Execution for the same wallet — the monitor checked nothing
before enqueuing, contradicting the claimed "never enqueues ... while a
prior Execution for that wallet is still pending or executing". -/
theorem monitor_no_inflight_check_counterexample :
    ((monitorTick portfolioOfLow recsOfOne oracleOfOk execIds 100
        [("wallet1.near", settingsApy)] 0 [("exec_old", exInFlight)]).2.map
          (fun p => p.2.walletAddress)) = ["wallet1.near", "wallet1.near"] ∧
    ((monitorTick portfolioOfLow recsOfOne oracleOfOk execIds 100
        [("wallet1.near", settingsApy)] 0 [("exec_old", exInFlight)]).2.map
          Prod.fst) = ["exec_old", "exec_new_0"] ∧
    exInFlight.status = ExecStatus.executing ∧
    exInFlight.walletAddress = "wallet1.near" :=
  ⟨rfl, rfl, rfl, rfl⟩
